import Mathlib

/-!
Shallow embedding of the bic.rasca tag-state engine
(`Server/.awacs-server/`: `geometricFunctions.py`, `dataProcessing.py`,
`awacs_server.py`, `lightsController_gpioserver.py`, `config.py`).

Modelling conventions:
* Python floats are idealised as real numbers (`ℝ`); Python ints as `ℤ`.
* A Python value that may be `None` is an `Option`.
* Code that can raise an exception is embedded in `Except Unit`; every
  distinct exception is collapsed to `.error ()` since the callers only
  catch-and-log.
* Python `round` (banker's rounding, ties to even) is `pyRound`;
  `round(x, 1)` is `round1`.  `math.atan2 y x` is `Complex.arg ⟨x, y⟩`,
  whose range `(-π, π]` and conventions match `atan2`.  Float `%` with a
  positive modulus is `fmodR`.
-/

namespace Rasca

/-- Python `round(x)`: nearest integer, ties to even. -/
noncomputable def pyRound (x : ℝ) : ℤ :=
  if Int.fract x = 1 / 2 then (if Even ⌊x⌋ then ⌊x⌋ else ⌊x⌋ + 1) else round x

/-- Python `round(x, 1)`: round to one decimal place. -/
noncomputable def round1 (x : ℝ) : ℝ := (pyRound (x * 10) : ℝ) / 10

/-- Python float `x % m` for positive `m` (floor-mod, result in `[0, m)`). -/
noncomputable def fmodR (x m : ℝ) : ℝ := x - m * ⌊x / m⌋

/-- Embedding of `math.degrees`. -/
noncomputable def mathDegrees (r : ℝ) : ℝ := r * 180 / Real.pi

/-- Embedding of `math.atan2 y x`, as the argument of the complex number `x + y*I`. -/
noncomputable def atan2 (y x : ℝ) : ℝ := Complex.arg ⟨x, y⟩

/-- Exception-propagating bind for the `Except Unit` embedding of raising code. -/
def bindE {α β : Type} : Except Unit α → (α → Except Unit β) → Except Unit β
  | .error e, _ => .error e
  | .ok a, f => f a

/-- A position tuple `(x, y)` as built by `createObject`/`updateObject`:
each coordinate is a float or `None` (missing `posX`/`posY` stream). -/
abbrev Coords := Option ℝ × Option ℝ

/-- Value of `config.POS_FLUCTUATION_FILTER`. -/
noncomputable def POS_FLUCTUATION_FILTER : ℝ := 0.8

/-- Value of `config.ZONE_PIN_MAP`. -/
def ZONE_PIN_MAP : List (String × ℤ) := [("LZ1", 2), ("LZ2", 3), ("LZ3", 14), ("LZ4", 4)]

/-!  `geometricFunctions.py`.  Each function unpacks its tuple arguments and
does float arithmetic on the components, so it raises `TypeError` whenever the
tuple itself is `None` or a used component is `None`; the `| _, _ => .error ()`
branches model exactly those raises. -/

/-- Embedding of `calculate_distance(coordinates_1, coordinates_2)`:
Euclidean distance rounded to one decimal; raises on any unknown coordinate. -/
noncomputable def calculate_distance : Option Coords → Option Coords → Except Unit ℝ
  | some (some x1, some y1), some (some x2, some y2) =>
    .ok (round1 (Real.sqrt ((x2 - x1) ^ 2 + (y2 - y1) ^ 2)))
  | _, _ => .error ()

/-- Embedding of `calculate_heading(coordinates_1, coordinates_2)`:
`round((90 - degrees(atan2(-dy, dx))) % 360)`; raises on unknown coordinates. -/
noncomputable def calculate_heading : Option Coords → Option Coords → Except Unit ℤ
  | some (some xs, some ys), some (some xe, some ye) =>
    .ok (pyRound (fmodR (90 - mathDegrees (atan2 (-(ye - ys)) (xe - xs))) 360))
  | _, _ => .error ()

/-- Embedding of `calculate_angle(myCoordinates, othersCoordinates, myHeading)`:
relative angle `(360 + round(heading - myHeading)) % 360`.  In this system
`myHeading` is always an integer (it comes from `calculate_heading`), so the
inner Python `round` is the identity and the arithmetic is integer arithmetic.
The initial tuple unpack raises when a tuple is `None`. -/
noncomputable def calculate_angle (myC othersC : Option Coords) (myHeading : ℤ) :
    Except Unit ℤ :=
  match myC, othersC with
  | some _, some _ =>
    bindE (calculate_heading myC othersC) fun angleBetweenUs =>
    .ok ((360 + (angleBetweenUs - myHeading)) % 360)
  | _, _ => .error ()

/-- Embedding of `calculate_speed(coordinates_1, tmsStart, coordinates_2, tmsEnd)`:
distance / elapsed, converted to km/h and rounded to one decimal; `0` when the
elapsed time is ≤ 0.  Raises if the distance raises or a timestamp is `None`
(the subtraction `tmsEnd - tmsStart` on `None`). -/
noncomputable def calculate_speed (c1 : Option Coords) (t1 : Option ℝ)
    (c2 : Option Coords) (t2 : Option ℝ) : Except Unit ℝ :=
  bindE (calculate_distance c1 c2) fun dx =>
  match t2, t1 with
  | some te, some ts =>
    if te - ts ≤ 0 then .ok 0 else .ok (round1 (dx / (te - ts) * 3600 / 1000))
  | _, _ => .error ()

/-!  `dataProcessing.py` data model.  A snapshot record (`result`) carries an
integer id, an alias, datastreams and zone names. -/

/-- One entry of `response['datastreams']`.  `currentValue` is
`some (some v)` when the `current_value` field is present and parses to the
float `v`; `some none` when it is present but malformed (Python
`float(...)` raises `ValueError`); `none` when the field is missing (Python
`stream['current_value']` raises `KeyError`).  `atValue` is `some t` when the
`at` field is present and parses to the epoch float `t`; `none` when it is
missing or malformed (both are silently skipped by `_extract_tms`). -/
structure Datastream where
  sid : String
  currentValue : Option (Option ℝ)
  atValue : Option ℝ

/-- One snapshot record for one asset. -/
structure TagData where
  tid : ℤ
  aliasName : String
  datastreams : List Datastream
  zones : List String

/-- Embedding of `dataProcessing._extract_pos(response, pos_id)`: value of the first
datastream whose id matches, `none` when no stream matches, error when the
matching stream's value is missing or malformed. -/
def extractPosGo (posId : String) : List Datastream → Except Unit (Option ℝ)
  | [] => .ok none
  | s :: ss =>
    if s.sid = posId then
      match s.currentValue with
      | some (some v) => .ok (some v)
      | _ => .error ()
    else extractPosGo posId ss

def extractPos (data : TagData) (posId : String) : Except Unit (Option ℝ) :=
  extractPosGo posId data.datastreams

/-- Embedding of `dataProcessing._extract_tms(response)`: latest parsed `at` timestamp over
the `posX`/`posY` streams; `None` when there is none.  Never raises. -/
noncomputable def extractTmsGo : List Datastream → Option ℝ → Option ℝ
  | [], acc => acc
  | s :: ss, acc =>
    if s.sid = "posY" ∨ s.sid = "posX" then
      match s.atValue with
      | none => extractTmsGo ss acc
      | some t =>
        match acc with
        | none => extractTmsGo ss (some t)
        | some m => if m < t then extractTmsGo ss (some t) else extractTmsGo ss acc
    else extractTmsGo ss acc

noncomputable def extractTms (data : TagData) : Option ℝ :=
  extractTmsGo data.datastreams none

/-- Embedding of `dataProcessing._extract_zone_names(response, zone_type)`: the zone names
starting with the given one-letter category. -/
def extractZoneNames (data : TagData) (zoneType : String) : List String :=
  data.zones.filter (fun z => z.startsWith zoneType)

/-- A `RelativeVector` as built by `create_vector` (`{"d": .., "r": .., "f": ..}`). -/
structure RelVec where
  d : ℤ
  r : ℝ
  f : Bool

/-- A tracked-object record (`TagState`), keyed by the same names as the
Python dict built in `createObject`: `aka`, `soc`, `pos`, `tms`,
`his = {pos, tms}` (flattened to `hisPos`/`hisTms`), `spd`, `hdg`, `mvz`,
`liz`, `bsz`, `vct`.  `pos` has an outer `Option` because
`updateObject` compares `obj.get('pos')` with `None`, even though every
record created by `createObject` stores a tuple there. -/
structure TagState where
  aka : String
  soc : Option Unit
  pos : Option Coords
  tms : Option ℝ
  hisPos : Option Coords
  hisTms : Option ℝ
  spd : Option ℝ
  hdg : Option ℤ
  mvz : List String
  liz : List String
  bsz : List String
  vct : List RelVec

/-- Embedding of `dataProcessing.createObject(id, data)`.  Raises exactly when a position
extraction raises. -/
noncomputable def createObject (data : TagData) : Except Unit TagState :=
  bindE (extractPos data "posX") fun px =>
  bindE (extractPos data "posY") fun py =>
  .ok
    { aka := data.aliasName
      soc := none
      pos := some (px, py)
      tms := extractTms data
      hisPos := none
      hisTms := none
      spd := none
      hdg := none
      mvz := extractZoneNames data "M"
      liz := extractZoneNames data "L"
      bsz := extractZoneNames data "B"
      vct := [] }

/-- Python truthiness of an optional float (`if tms and his_tms`):
`None` and `0.0` are falsy. -/
noncomputable def truthyTms : Option ℝ → Bool
  | none => false
  | some t => if t = 0 then false else true

/-- Embedding of `dataProcessing.updateObject(obj, data)`.  The fluctuation guard evaluates
`calculate_distance((newX, newY), obj['pos'])` first (left operand of `or`),
so an unknown coordinate raises before the `obj.get('pos') == None` disjunct
is ever tested; a raise propagates to the caller and skips even the zone
refresh. -/
noncomputable def updateObject (obj : TagState) (data : TagData) : Except Unit TagState :=
  bindE (extractPos data "posX") fun nx =>
  bindE (extractPos data "posY") fun ny =>
  bindE (calculate_distance (some (nx, ny)) obj.pos) fun d =>
  bindE
    (if POS_FLUCTUATION_FILTER ≤ d ∨ obj.pos = none then
      bindE (extractPos data "posX") fun px =>
      bindE (extractPos data "posY") fun py =>
      let tms := extractTms data
      let hisPos := obj.pos
      let hisTms := obj.tms
      bindE
        (if truthyTms tms && truthyTms hisTms then
          calculate_speed hisPos hisTms (some (px, py)) tms
        else .ok 0) fun spd =>
      bindE
        (if hisPos ≠ none ∧ some ((px, py) : Coords) ≠ hisPos then
          bindE (calculate_heading hisPos (some (px, py))) fun h => .ok (some h)
        else .ok obj.hdg) fun hdg =>
      .ok
        { obj with
          pos := some (px, py)
          tms := tms
          hisPos := hisPos
          hisTms := hisTms
          spd := some spd
          hdg := hdg }
    else .ok obj) fun obj1 =>
  .ok
    { obj1 with
      mvz := extractZoneNames data "M"
      liz := extractZoneNames data "L"
      bsz := extractZoneNames data "B"
      vct := [] }

/-- The conditional expression
`calculate_angle(my_pos, other_pos, my_hdg) if my_hdg else -1` of
`create_vector`: `if my_hdg` is Python truthiness, so a heading of `None`
*or `0`* selects the `-1` sentinel. -/
noncomputable def vectorDirection (hdg : Option ℤ) (myPos otherPos : Option Coords) :
    Except Unit ℤ :=
  match hdg with
  | none => .ok (-1)
  | some h => if h = 0 then .ok (-1) else calculate_angle myPos otherPos h

/-- Embedding of `dataProcessing.create_vector(obj, other_obj)`.  The direction is
computed (and can raise) before the distance; `contactIsFuzzy` is set when
the counterpart is in a bad-signal zone, and the direction is overridden to
`-1` when both parties are. -/
noncomputable def create_vector (obj other : TagState) : Except Unit RelVec :=
  bindE (vectorDirection obj.hdg obj.pos other.pos) fun direction0 =>
  let contactIsFuzzy := !other.bsz.isEmpty
  let direction : ℤ :=
    if obj.bsz ≠ [] ∧ other.bsz ≠ [] then -1 else direction0
  bindE (calculate_distance obj.pos other.pos) fun radius =>
  .ok { d := direction, r := radius, f := contactIsFuzzy }

/-!  `awacs_server.py`.  The registry `obj_dict` is an insertion-ordered map
from integer id to record; it is embedded as an association list with the
dict operations below. -/

/-- Registry of tracked objects. -/
abbrev Registry := List (ℤ × TagState)

/-- Python `obj_dict[i]` lookup (as an `Option`, for the `in` test). -/
def lookupObj (i : ℤ) : Registry → Option TagState
  | [] => none
  | p :: ps => if p.1 = i then some p.2 else lookupObj i ps

/-- Python `obj_dict[i] = o` for a key already present: replace in place. -/
def setKey (reg : Registry) (i : ℤ) (o : TagState) : Registry :=
  reg.map (fun p => if p.1 = i then (i, o) else p)

/-- Embedding of `awacs_server.update_objects(obj_dict)` applied to one fetched response.
Records whose id is not already in the registry are skipped (`if result_id in
obj_dict`); a raise from `updateObject` is caught by the stage's
`try/except`, which abandons the rest of the response but keeps the
mutations made so far.  A failed fetch (`GetAllTags` raising) is caught the
same way and leaves the registry untouched. -/
noncomputable def update_objectsGo : Registry → List TagData → Registry
  | reg, [] => reg
  | reg, r :: rest =>
    match lookupObj r.tid reg with
    | none => update_objectsGo reg rest
    | some obj =>
      match updateObject obj r with
      | .ok obj2 => update_objectsGo (setKey reg r.tid obj2) rest
      | .error _ => reg

noncomputable def update_objects (reg : Registry) (response : Except Unit (List TagData)) :
    Registry :=
  match response with
  | .error _ => reg
  | .ok rs => update_objectsGo reg rs

/-- Inner loop of `awacs_server.create_vectors`: the vectors of `obj` against
every other entry, in registry order; propagates a raise from
`create_vector`. -/
noncomputable def buildVectors (obj : TagState) (i : ℤ) :
    Registry → Except Unit (List RelVec)
  | [] => .ok []
  | p :: ps =>
    if p.1 ≠ i then
      bindE (create_vector obj p.2) fun v =>
      bindE (buildVectors obj i ps) fun vs =>
      .ok (v :: vs)
    else buildVectors obj i ps

/-- Embedding of `awacs_server.create_vectors(obj_dict)`: for each id (in registry order)
rebuild that entry's `vct`.  The whole loop runs inside one `try/except`, so
the first raise abandons the remaining entries, keeping the assignments made
so far; the boolean records whether the loop ran to completion. -/
noncomputable def create_vectorsGo : List ℤ → Registry → Registry × Bool
  | [], reg => (reg, true)
  | i :: rest, reg =>
    match lookupObj i reg with
    | none => (reg, false)
    | some obj =>
      match buildVectors obj i reg with
      | .ok vs => create_vectorsGo rest (setKey reg i { obj with vct := vs })
      | .error _ => (reg, false)

noncomputable def create_vectors (reg : Registry) : Registry × Bool :=
  create_vectorsGo (reg.map Prod.fst) reg

/-!  `lightsController_gpioserver.py`. -/

/-- The `penetrated_zones` set: union over the registry of each record's
`liz` zone names (as a list; membership is what matters). -/
def penetrated_zones (reg : Registry) : List String :=
  reg.foldr (fun p acc => p.2.liz ++ acc) []

/-- Embedding of `lightsController_gpioserver.check_zones(objects)`, decision part: the
`(pin, state)` command issued per mapped zone, `state = (zone not in
penetrated_zones)` (`True` commands the light ON per `_control_light_pin`). -/
def check_zonesCommands (reg : Registry) : List (ℤ × Bool) :=
  ZONE_PIN_MAP.map (fun zp => (zp.2, !((penetrated_zones reg).contains zp.1)))

/-- Outcome of one actuator HTTP command, supplied by the environment:
success, a `requests.exceptions.RequestException` (caught and logged inside
`_control_light_pin`), or any other exception (uncaught there). -/
inductive ActOut
  | ok
  | reqErr
  | otherErr
deriving DecidableEq

/-- Dispatch of `check_zones` commands against the environment's per-command
outcomes (`.ok`/`.reqErr` are absorbed, `.otherErr` propagates out of the
stage; missing outcomes default to success). -/
def runCommands : List (ℤ × Bool) → List ActOut → Except Unit Unit
  | [], _ => .ok ()
  | _ :: cs, [] => runCommands cs []
  | _ :: cs, o :: os =>
    match o with
    | .otherErr => .error ()
    | _ => runCommands cs os

/-- The collaborator behaviour one scheduler cycle observes: the fetch result
consumed by `update_objects`, and the actuator outcomes consumed by
`check_zones`.  `send_telemetry` wraps each publish in its own
`try/except Exception` and mutates nothing, so it cannot affect control flow
and is omitted. -/
structure CycleEnv where
  fetch : Except Unit (List TagData)
  act : List ActOut

/-- One iteration of the `while True` body in `awacs_server.main`:
`update_objects`, `create_vectors`, `check_zones`, `send_telemetry`.  The
first two stages swallow their own exceptions; an exception escaping
`check_zones` propagates out of the cycle. -/
noncomputable def cycle (env : CycleEnv) (reg : Registry) : Except Unit Registry :=
  let reg1 := update_objects reg env.fetch
  let reg2 := (create_vectors reg1).1
  bindE (runCommands (check_zonesCommands reg2) env.act) fun _ => .ok reg2

/-- Embedding of the loop of `awacs_server.main`, driven by the list of per-cycle environments
(external stop = end of the list).  The only `try/except` wrapping the cycle
sequence sits *outside* the `while True`, so an exception escaping a stage
ends the loop: `main` logs and returns.  Result: (number of cycles completed,
final registry). -/
noncomputable def mainLoop : List CycleEnv → Registry → ℕ × Registry
  | [], reg => (0, reg)
  | e :: es, reg =>
    match cycle e reg with
    | .ok reg2 =>
      let r := mainLoop es reg2
      (r.1 + 1, r.2)
    | .error _ => (0, reg)

/-- The integer value of `calculate_heading` on fully known coordinates
(pulled out so that theorems about `create_vector` can name the bearing). -/
noncomputable def headingVal (x1 y1 x2 y2 : ℝ) : ℤ :=
  pyRound (fmodR (90 - mathDegrees (atan2 (-(y2 - y1)) (x2 - x1))) 360)

/-!  Concrete records used to instantiate the theorems below. -/

/-- A tracked object as created from a snapshot with position `(0, 0)` and no
timestamp, no zones, nothing derived yet. -/
noncomputable def baseTag : TagState :=
  { aka := "t", soc := none, pos := some (some 0, some 0), tms := none,
    hisPos := none, hisTms := none, spd := none, hdg := none,
    mvz := [], liz := [], bsz := [], vct := [] }

/-- A snapshot record carrying position `(3, 4)` and no timestamps. -/
def dataK1 : TagData :=
  ⟨1, "t1", [⟨"posX", some (some 3), none⟩, ⟨"posY", some (some 4), none⟩], []⟩

/-- A registry object whose prior position is unknown (`(None, None)`: both
position streams were absent at creation time). -/
noncomputable def objU1 : TagState := { baseTag with pos := some (none, none) }

/-- A snapshot record whose `posX`/`posY` streams are absent: the candidate
position degrades to `(None, None)`. -/
def dataU2 : TagData := ⟨2, "t2", [], ["M1", "LZ1"]⟩

/-- A registry object with a known prior position `(0, 0)`. -/
noncomputable def objK2 : TagState := baseTag

/-- Single-entry registry holding only the asset with id `1`. -/
noncomputable def reg3 : Registry := [(1, baseTag)]

/-- A snapshot record for the previously unseen asset id `2`. -/
def data3b : TagData := ⟨2, "newcomer", [], []⟩

/-- An object that has already been through a committed update: position
`(0, 0)`, timestamp `100`, speed `36.0`. -/
noncomputable def objC4 : TagState :=
  { baseTag with
    tms := some 100
    hisPos := some (some 5, some 5)
    hisTms := some 50
    spd := some 36
    hdg := some 45 }

/-- An update for `objC4` that moves to `(10, 0)` but carries no `at`
timestamps, so the candidate timestamp degrades to `None`. -/
def dataC4 : TagData :=
  ⟨4, "t4", [⟨"posX", some (some 10), none⟩, ⟨"posY", some (some 0), none⟩], []⟩

/-- Witness object for the speed law: position `(0, 0)` at time `100`. -/
noncomputable def objW4 : TagState := { baseTag with tms := some 100 }

/-- Witness update: position `(10, 0)` at time `200`. -/
def dataW4 : TagData :=
  ⟨4, "t4", [⟨"posX", some (some 10), some 200⟩, ⟨"posY", some (some 0), none⟩], []⟩

/-- Subject with known position `(0, 0)` and *known heading 0 degrees*. -/
noncomputable def objA0 : TagState := { baseTag with hdg := some 0 }

/-- Counterpart due east of `objA0`, at `(10, 0)`, not in any bad-signal zone. -/
noncomputable def objB0 : TagState := { baseTag with pos := some (some 10, some 0) }

/-- Subject with known position `(0, 0)` and heading 90 degrees. -/
noncomputable def objA5 : TagState := { baseTag with hdg := some 90 }

/-- Counterpart at `(10, 0)` that is inside a bad-signal zone. -/
noncomputable def objB5 : TagState :=
  { baseTag with pos := some (some 10, some 0), bsz := ["B1"] }

/-- Two-asset registry with fully known positions (vectors computable). -/
noncomputable def regW7 : Registry :=
  [(1, baseTag), (2, { baseTag with pos := some (some 10, some 0) })]

/-- A cycle whose first actuator command fails with a non-`RequestException`. -/
def envBad9 : CycleEnv := ⟨.error (), [ActOut.otherErr]⟩

/-- A cycle in which every collaborator call behaves (fetch fails but that is
absorbed inside `update_objects`). -/
def envGood9 : CycleEnv := ⟨.error (), []⟩

/-- A benign cycle with one successful and one `RequestException` command. -/
def envW9 : CycleEnv := ⟨.error (), [ActOut.ok, ActOut.reqErr]⟩

/-- A registry object with committed kinematics, position `(0, 0)`. -/
noncomputable def objW10 : TagState :=
  { baseTag with
    tms := some 100
    hisPos := some (some 1, some 1)
    hisTms := some 90
    spd := some 5
    hdg := some 120
    mvz := ["M9"]
    liz := ["LZ9"]
    bsz := ["B9"]
    vct := [{ d := 1, r := 2, f := false }] }

/-- An update that reports `(0, 0)` again (inside the fluctuation filter)
while carrying fresh zone memberships. -/
def dataW10 : TagData :=
  ⟨10, "t10", [⟨"posX", some (some 0), some 150⟩, ⟨"posY", some (some 0), none⟩],
   ["M1", "LZ2", "B3"]⟩

/-- Witness object for the commit law: position `(0, 0)`, no kinematics yet. -/
noncomputable def objW1 : TagState := baseTag

/-- Witness update for the commit law: moves to `(3, 4)`, new zones. -/
def dataW1 : TagData :=
  ⟨1, "t1", [⟨"posX", some (some 3), none⟩, ⟨"posY", some (some 4), none⟩],
   ["M2", "LZ1"]⟩

/-!  Theorems.  First the generic helper lemmas, then one theorem (plus
witness / counterexample) per specification claim. -/

@[simp] theorem bindE_ok {α β : Type} (a : α) (f : α → Except Unit β) :
    bindE (.ok a) f = f a := rfl

@[simp] theorem bindE_error {α β : Type} (e : Unit) (f : α → Except Unit β) :
    bindE (.error e) f = .error e := rfl

theorem pyRound_intCast (n : ℤ) : pyRound ((n : ℝ)) = n := by
  unfold pyRound
  rw [Int.fract_intCast]
  norm_num [round_intCast]

theorem round1_intCast (n : ℤ) : round1 ((n : ℝ)) = (n : ℝ) := by
  unfold round1
  rw [show ((n : ℝ) * 10) = (((n * 10 : ℤ)) : ℝ) by push_cast; ring, pyRound_intCast]
  push_cast
  ring

theorem fmodR_small (x m : ℝ) (hm : 0 < m) (h0 : 0 ≤ x) (h1 : x < m) :
    fmodR x m = x := by
  unfold fmodR
  rw [Int.floor_eq_zero_iff.mpr ⟨div_nonneg h0 hm.le, by rwa [div_lt_one hm]⟩]
  simp

theorem atan2_zero_pos (x : ℝ) (hx : 0 < x) : atan2 0 x = 0 := by
  unfold atan2
  exact Complex.arg_eq_zero_iff.mpr ⟨le_of_lt hx, rfl⟩

theorem atan2_neg_y (y : ℝ) (hy : y < 0) : atan2 y 0 = -(Real.pi / 2) := by
  unfold atan2
  exact Complex.arg_eq_neg_pi_div_two_iff.mpr ⟨rfl, hy⟩

theorem mathDegrees_zero : mathDegrees 0 = 0 := by
  unfold mathDegrees
  simp

theorem mathDegrees_neg_pi_div_two : mathDegrees (-(Real.pi / 2)) = -90 := by
  unfold mathDegrees
  rw [div_eq_iff Real.pi_ne_zero]
  ring

theorem heading_east :
    calculate_heading (some (some 0, some 0)) (some (some 10, some 0)) = .ok 90 := by
  show Except.ok (pyRound (fmodR (90 - mathDegrees (atan2 (-((0 : ℝ) - 0)) ((10 : ℝ) - 0))) 360))
      = Except.ok (90 : ℤ)
  rw [show (-((0 : ℝ) - 0)) = 0 by norm_num, show ((10 : ℝ) - 0) = 10 by norm_num,
    atan2_zero_pos 10 (by norm_num), mathDegrees_zero,
    show ((90 : ℝ) - 0) = 90 by norm_num,
    fmodR_small 90 360 (by norm_num) (by norm_num) (by norm_num),
    show (90 : ℝ) = ((90 : ℤ) : ℝ) by norm_num, pyRound_intCast]

theorem heading_north10 :
    calculate_heading (some (some 0, some 0)) (some (some 0, some 10)) = .ok 180 := by
  show Except.ok (pyRound (fmodR (90 - mathDegrees (atan2 (-((10 : ℝ) - 0)) ((0 : ℝ) - 0))) 360))
      = Except.ok (180 : ℤ)
  rw [show (-((10 : ℝ) - 0)) = -10 by norm_num, show ((0 : ℝ) - 0) = 0 by norm_num,
    atan2_neg_y (-10) (by norm_num), mathDegrees_neg_pi_div_two,
    show ((90 : ℝ) - (-90)) = 180 by norm_num,
    fmodR_small 180 360 (by norm_num) (by norm_num) (by norm_num),
    show (180 : ℝ) = ((180 : ℤ) : ℝ) by norm_num, pyRound_intCast]

theorem distance_345 :
    calculate_distance (some (some 0, some 0)) (some (some 3, some 4)) = .ok 5 := by
  show Except.ok (round1 (Real.sqrt (((3 : ℝ) - 0) ^ 2 + ((4 : ℝ) - 0) ^ 2)))
      = Except.ok (5 : ℝ)
  rw [show (((3 : ℝ) - 0) ^ 2 + ((4 : ℝ) - 0) ^ 2) = (5 : ℝ) ^ 2 by norm_num,
    Real.sqrt_sq (by norm_num : (0 : ℝ) ≤ 5),
    show (5 : ℝ) = ((5 : ℤ) : ℝ) by norm_num, round1_intCast]

/-- C1 counterexample: for an asset whose prior position is unknown
(`(None, None)`, from a snapshot missing both position streams) and a fully
known candidate position `(3, 4)`, `updateObject` raises — a `TypeError`
inside `calculate_distance`, since the guard evaluates the distance before
the `obj.get('pos') == None` disjunct — instead of committing the new
position as the claim states; not even the zone sets are refreshed. -/
theorem updateObject_unknown_prior_raises :
    updateObject objU1 dataK1 = .error () := rfl

/-- C2: the update of an asset whose candidate position is unknown (both
position streams missing from the record) does not complete: `updateObject`
raises a `TypeError` inside `calculate_distance` instead of degrading to an
unknown value, contradicting the claim that no branch of the update raises. -/
theorem updateObject_unknown_candidate_raises :
    updateObject objK2 dataU2 = .error () := rfl

/-- C3 counterexample: asset id `2` appears for the first time in a fetched
snapshot, but `update_objects` leaves the registry unchanged — no `TagState`
is created for it (`update_objects` only touches ids already present). -/
theorem update_objects_ignores_new_id :
    update_objects reg3 (.ok [data3b]) = reg3 ∧
    lookupObj 2 (update_objects reg3 (.ok [data3b])) = none :=
  ⟨rfl, rfl⟩

/-- C5 counterexample: subject at `(0, 0)` with *known* heading `0`,
counterpart at `(10, 0)`, nobody in a bad-signal zone.  The bearing is `90`,
so the claim demands direction `(90 - 0) mod 360 = 90`; the code returns the
sentinel `-1`, because `if my_hdg` treats the heading `0` as falsy. -/
theorem create_vector_zero_heading_sentinel :
    (create_vector objA0 objB0).toOption.map RelVec.d = some (-1) ∧
    calculate_heading objA0.pos objB0.pos = .ok 90 := by
  exact ⟨rfl, heading_east⟩

/-- C6: reference values of the geometric primitives.
`heading((0,0),(0,10))` evaluates to `180` — not `0` as the claim (and the
function's own docstring, "measured clockwise from the positive y-axis")
state — because `calculate_heading` negates `dy` before `atan2`; the other
two reference values hold as claimed. -/
theorem geometry_reference_values :
    calculate_heading (some (some 0, some 0)) (some (some 0, some 10)) = .ok 180 ∧
    calculate_heading (some (some 0, some 0)) (some (some 10, some 0)) = .ok 90 ∧
    calculate_distance (some (some 0, some 0)) (some (some 3, some 4)) = .ok 5 :=
  ⟨heading_north10, heading_east, distance_345⟩

/-- Shared helper: below the fluctuation threshold, `updateObject` only
refreshes the zone sets and clears the vectors. -/
theorem updateObject_reject_aux (obj : TagState) (data : TagData) (x1 y1 x2 y2 : ℝ)
    (hpos : obj.pos = some (some x1, some y1))
    (hx : extractPos data "posX" = .ok (some x2))
    (hy : extractPos data "posY" = .ok (some y2))
    (hlt : round1 (Real.sqrt ((x1 - x2) ^ 2 + (y1 - y2) ^ 2)) < POS_FLUCTUATION_FILTER) :
    updateObject obj data = .ok
      { obj with
        mvz := extractZoneNames data "M"
        liz := extractZoneNames data "L"
        bsz := extractZoneNames data "B"
        vct := [] } := by
  have hcond : ¬(POS_FLUCTUATION_FILTER ≤
      round1 (Real.sqrt ((x1 - x2) ^ 2 + (y1 - y2) ^ 2)) ∨
      obj.pos = (none : Option Coords)) := by
    rintro (h | h)
    · exact absurd h (not_le.mpr hlt)
    · rw [hpos] at h
      exact Option.some_ne_none _ h
  unfold updateObject
  rw [hx, bindE_ok, hy, bindE_ok, hpos]
  rw [show calculate_distance (some (some x2, some y2)) (some (some x1, some y1))
      = .ok (round1 (Real.sqrt ((x1 - x2) ^ 2 + (y1 - y2) ^ 2))) from rfl, bindE_ok]
  rw [← hpos, if_neg hcond, bindE_ok]

/-- C10: when the fluctuation filter rejects a report (prior position fully
known and distance from the known candidate position below the threshold),
`updateObject` returns the object with *only* the three zone sets refreshed
and the vectors cleared: position, timestamp, history, speed and heading are
all left unchanged. -/
theorem updateObject_reject_frame (obj : TagState) (data : TagData) (x1 y1 x2 y2 : ℝ)
    (hpos : obj.pos = some (some x1, some y1))
    (hx : extractPos data "posX" = .ok (some x2))
    (hy : extractPos data "posY" = .ok (some y2))
    (hlt : round1 (Real.sqrt ((x1 - x2) ^ 2 + (y1 - y2) ^ 2)) < POS_FLUCTUATION_FILTER) :
    updateObject obj data = .ok
      { obj with
        mvz := extractZoneNames data "M"
        liz := extractZoneNames data "L"
        bsz := extractZoneNames data "B"
        vct := [] } :=
  updateObject_reject_aux obj data x1 y1 x2 y2 hpos hx hy hlt

/-- C10 witness: a stationary report for `objW10` (distance `0 < 0.8`) leaves
everything but the zone sets and vectors untouched. -/
theorem updateObject_reject_frame_witness :
    updateObject objW10 dataW10 = .ok
      { objW10 with
        mvz := extractZoneNames dataW10 "M"
        liz := extractZoneNames dataW10 "L"
        bsz := extractZoneNames dataW10 "B"
        vct := [] } :=
  updateObject_reject_frame objW10 dataW10 0 0 0 0 rfl rfl rfl (by
    rw [show ((0 : ℝ) - 0) ^ 2 + ((0 : ℝ) - 0) ^ 2 = 0 by norm_num, Real.sqrt_zero,
      show (0 : ℝ) = ((0 : ℤ) : ℝ) by norm_num, round1_intCast]
    unfold POS_FLUCTUATION_FILTER
    norm_num)

/-- Shared helper: resolution of the heading update inside the commit branch
(`hdg` becomes the fresh bearing when the position changed, else is kept). -/
theorem hdg_tail (hdg0 : Option ℤ) (x1 y1 x2 y2 : ℝ) :
    ∃ h, (if (some ((some x1, some y1) : Coords) ≠ none ∧
              some ((some x2, some y2) : Coords) ≠ some ((some x1, some y1) : Coords)) then
            bindE (calculate_heading (some (some x1, some y1)) (some (some x2, some y2)))
              fun hh => Except.ok (some hh)
          else Except.ok hdg0) = Except.ok h := by
  by_cases hne : some ((some x2, some y2) : Coords) = some ((some x1, some y1) : Coords)
  · exact ⟨hdg0, if_neg (fun hc => hc.2 hne)⟩
  · exact ⟨some (headingVal x1 y1 x2 y2),
      by rw [if_pos ⟨Option.some_ne_none _, hne⟩]; rfl⟩

/-- C1 (amended): for an asset whose prior and candidate positions are fully
known, `updateObject` commits — moves the prior `(position, timestamp)` pair
into history and installs the candidate position and timestamp — exactly when
the rounded Euclidean distance between the two positions reaches the
configured threshold; below the threshold, position, timestamp and history
are left unchanged while the three zone sets are still refreshed from the
snapshot. -/
theorem updateObject_commit_iff (obj : TagState) (data : TagData) (x1 y1 x2 y2 : ℝ)
    (hpos : obj.pos = some (some x1, some y1))
    (hx : extractPos data "posX" = .ok (some x2))
    (hy : extractPos data "posY" = .ok (some y2)) :
    (POS_FLUCTUATION_FILTER ≤ round1 (Real.sqrt ((x1 - x2) ^ 2 + (y1 - y2) ^ 2)) →
      ∃ s h, updateObject obj data = .ok
        { obj with
          pos := some (some x2, some y2)
          tms := extractTms data
          hisPos := obj.pos
          hisTms := obj.tms
          spd := some s
          hdg := h
          mvz := extractZoneNames data "M"
          liz := extractZoneNames data "L"
          bsz := extractZoneNames data "B"
          vct := [] }) ∧
    (round1 (Real.sqrt ((x1 - x2) ^ 2 + (y1 - y2) ^ 2)) < POS_FLUCTUATION_FILTER →
      updateObject obj data = .ok
        { obj with
          mvz := extractZoneNames data "M"
          liz := extractZoneNames data "L"
          bsz := extractZoneNames data "B"
          vct := [] }) := by
  constructor
  · intro hthr
    unfold updateObject
    rw [hpos]
    simp only [hx, hy, bindE_ok]
    rw [show calculate_distance (some (some x2, some y2)) (some (some x1, some y1))
        = .ok (round1 (Real.sqrt ((x1 - x2) ^ 2 + (y1 - y2) ^ 2))) from rfl]
    simp only [bindE_ok]
    rw [if_pos (Or.inl hthr)]
    rcases hT : extractTms data with _ | t1
    · rw [show truthyTms none = false from rfl, Bool.false_and,
        if_neg (Bool.false_ne_true)]
      simp only [bindE_ok]
      obtain ⟨h, hh⟩ := hdg_tail obj.hdg x1 y1 x2 y2
      rw [hh]
      simp only [bindE_ok]
      exact ⟨_, h, rfl⟩
    · rcases hO : obj.tms with _ | t0
      · rw [show truthyTms none = false from rfl, Bool.and_false,
          if_neg (Bool.false_ne_true)]
        simp only [bindE_ok]
        obtain ⟨h, hh⟩ := hdg_tail obj.hdg x1 y1 x2 y2
        rw [hh]
        simp only [bindE_ok]
        exact ⟨_, h, rfl⟩
      · cases hb : (truthyTms (some t1) && truthyTms (some t0)) with
        | false =>
          rw [if_neg (Bool.false_ne_true)]
          simp only [bindE_ok]
          obtain ⟨h, hh⟩ := hdg_tail obj.hdg x1 y1 x2 y2
          rw [hh]
          simp only [bindE_ok]
          exact ⟨_, h, rfl⟩
        | true =>
          rw [if_pos rfl]
          rw [show calculate_speed (some (some x1, some y1)) (some t0)
                (some (some x2, some y2)) (some t1)
              = (if t1 - t0 ≤ 0 then Except.ok 0
                 else Except.ok (round1 (round1 (Real.sqrt ((x2 - x1) ^ 2 + (y2 - y1) ^ 2))
                   / (t1 - t0) * 3600 / 1000))) from rfl]
          by_cases hdt : t1 - t0 ≤ 0
          · rw [if_pos hdt]
            simp only [bindE_ok]
            obtain ⟨h, hh⟩ := hdg_tail obj.hdg x1 y1 x2 y2
            rw [hh]
            simp only [bindE_ok]
            exact ⟨_, h, rfl⟩
          · rw [if_neg hdt]
            simp only [bindE_ok]
            obtain ⟨h, hh⟩ := hdg_tail obj.hdg x1 y1 x2 y2
            rw [hh]
            simp only [bindE_ok]
            exact ⟨_, h, rfl⟩
  · exact fun hlt => updateObject_reject_aux obj data x1 y1 x2 y2 hpos hx hy hlt

/-- C1 witness: prior position `(0, 0)`, candidate `(3, 4)`: the distance `5`
clears the threshold `0.8`, so the update commits. -/
theorem updateObject_commit_iff_witness :
    ∃ s h, updateObject objW1 dataW1 = .ok
      { objW1 with
        pos := some (some 3, some 4)
        tms := extractTms dataW1
        hisPos := objW1.pos
        hisTms := objW1.tms
        spd := some s
        hdg := h
        mvz := extractZoneNames dataW1 "M"
        liz := extractZoneNames dataW1 "L"
        bsz := extractZoneNames dataW1 "B"
        vct := [] } :=
  (updateObject_commit_iff objW1 dataW1 0 0 3 4 rfl rfl rfl).1 (by
    rw [show ((0 : ℝ) - 3) ^ 2 + ((0 : ℝ) - 4) ^ 2 = (5 : ℝ) ^ 2 by norm_num,
      Real.sqrt_sq (by norm_num : (0 : ℝ) ≤ 5),
      show (5 : ℝ) = ((5 : ℤ) : ℝ) by norm_num, round1_intCast]
    unfold POS_FLUCTUATION_FILTER
    norm_num)

/-- C9 counterexample: in the first of two scheduled cycles the zone-light
stage raises a non-`RequestException`; the handler that catches it sits
outside the `while True` loop, so the loop terminates — zero cycles complete
instead of the two the claim promises. -/
theorem mainLoop_stops_on_stage_error :
    (mainLoop [envBad9, envGood9] ([] : Registry)).1 = 0 := rfl

/-- Shared helper: replacing the value at a key leaves the key sequence
unchanged. -/
theorem setKey_keys (reg : Registry) (i : ℤ) (o : TagState) :
    (setKey reg i o).map Prod.fst = reg.map Prod.fst := by
  unfold setKey
  rw [List.map_map]
  refine List.map_congr_left ?_
  intro p _
  by_cases h : p.1 = i
  · simp [Function.comp, h]
  · simp [Function.comp, h]

/-- C3 (amended): `update_objects` neither creates nor deletes registry
entries — the key sequence of the registry is invariant under an update pass,
whatever the fetched response contains (so an identifier first appearing
after startup never gets a `TagState`, and a `TagState` once created is never
deleted by the update engine). -/
theorem update_objects_keys_invariant (reg : Registry) (resp : Except Unit (List TagData)) :
    (update_objects reg resp).map Prod.fst = reg.map Prod.fst := by
  cases resp with
  | error e => rfl
  | ok rs =>
    show (update_objectsGo reg rs).map Prod.fst = reg.map Prod.fst
    induction rs generalizing reg with
    | nil => rfl
    | cons r rest ih =>
      show (update_objectsGo reg (r :: rest)).map Prod.fst = reg.map Prod.fst
      unfold update_objectsGo
      split
      · exact ih reg
      · split
        · exact (ih _).trans (setKey_keys _ _ _)
        · rfl

/-- Shared helper: membership in the penetrated-zone union. -/
theorem mem_penetrated (reg : Registry) (z : String) :
    z ∈ penetrated_zones reg ↔ ∃ p ∈ reg, z ∈ p.2.liz := by
  induction reg with
  | nil => simp [penetrated_zones]
  | cons p ps ih =>
    show z ∈ p.2.liz ++ penetrated_zones ps ↔ _
    rw [List.mem_append, ih]
    constructor
    · rintro (hz | ⟨q, hq, hz⟩)
      · exact ⟨p, List.mem_cons_self _ _, hz⟩
      · exact ⟨q, List.mem_cons_of_mem _ hq, hz⟩
    · rintro ⟨q, hq, hz⟩
      rcases List.mem_cons.mp hq with rfl | hq'
      · exact Or.inl hz
      · exact Or.inr ⟨q, hq', hz⟩

/-- C8: for every zone in the static zone-to-pin map, `check_zones` commands
the actuator state `true` (lamp ON) exactly when no tracked asset reports the
zone among its `liz` light zones, and `false` (lamp OFF) exactly when at
least one does. -/
theorem check_zones_polarity (reg : Registry) :
    check_zonesCommands reg
      = ZONE_PIN_MAP.map (fun zp => (zp.2, decide (∀ p ∈ reg, zp.1 ∉ p.2.liz))) := by
  unfold check_zonesCommands
  refine List.map_congr_left ?_
  intro zp _
  refine congrArg (fun b => (zp.2, b)) ?_
  show (!(List.elem zp.1 (penetrated_zones reg))) = decide (∀ p ∈ reg, zp.1 ∉ p.2.liz)
  rw [List.elem_eq_mem, ← decide_not]
  refine decide_eq_decide.mpr ?_
  rw [mem_penetrated]
  push_neg
  rfl

/-- Shared helper: the light-command dispatch succeeds when no outcome is an
uncaught exception. -/
theorem runCommands_ok (cs : List (ℤ × Bool)) (outs : List ActOut)
    (h : ActOut.otherErr ∉ outs) : runCommands cs outs = .ok () := by
  induction cs generalizing outs with
  | nil => rfl
  | cons c cs ih =>
    cases outs with
    | nil => exact ih [] (by simp)
    | cons o os =>
      have hos : ActOut.otherErr ∉ os := fun hm => h (List.mem_cons_of_mem _ hm)
      cases o with
      | ok => exact ih os hos
      | reqErr => exact ih os hos
      | otherErr => exact absurd (List.mem_cons_self _ _) h

/-- C9 (amended): failures inside the fetch/update stage and the vector stage
are swallowed by their per-stage handlers, so as long as no cycle's actuator
dispatch raises an uncaught (non-`RequestException`) error, the scheduler
completes every scheduled cycle; one uncaught stage error, however, ends the
loop (see the counterexample), because the only handler around the cycle
sequence sits outside the `while True`. -/
theorem mainLoop_runs_all (envs : List CycleEnv) (reg : Registry)
    (h : ∀ e ∈ envs, ActOut.otherErr ∉ e.act) :
    (mainLoop envs reg).1 = envs.length := by
  induction envs generalizing reg with
  | nil => rfl
  | cons e es ih =>
    have hc : cycle e reg
        = .ok ((create_vectors (update_objects reg e.fetch)).1) := by
      show bindE (runCommands (check_zonesCommands
          ((create_vectors (update_objects reg e.fetch)).1)) e.act) _ = _
      rw [runCommands_ok _ _ (h e (List.mem_cons_self _ _))]
      rfl
    show (mainLoop (e :: es) reg).1 = es.length + 1
    unfold mainLoop
    rw [hc]
    show (mainLoop es _).1 + 1 = es.length + 1
    rw [ih _ (fun e' he' => h e' (List.mem_cons_of_mem _ he'))]

/-- C9 witness: a single cycle whose actuator outcomes are a success and a
caught `RequestException` completes normally. -/
theorem mainLoop_runs_all_witness :
    (mainLoop [envW9] ([] : Registry)).1 = 1 :=
  mainLoop_runs_all [envW9] [] (by
    intro e he
    rw [List.mem_singleton] at he
    subst he
    decide)

/-- C4 counterexample: `objC4` carries speed `36.0` from an earlier committed
update; the next report moves it by `10` units (so the update commits) but
carries no `at` timestamps, so the candidate timestamp is unknown.  The claim
says speed is then left at its prior value `36.0`; the code sets it to `0`
(`spd = ... if tms and his_tms else 0`). -/
theorem updateObject_speed_zero_on_missing_tms :
    objC4.spd = some 36 ∧
    (updateObject objC4 dataC4).toOption.map TagState.spd = some (some 0) := by
  refine ⟨rfl, ?_⟩
  have hd : round1 (Real.sqrt (((0 : ℝ) - 10) ^ 2 + ((0 : ℝ) - 0) ^ 2)) = 10 := by
    rw [show ((0 : ℝ) - 10) ^ 2 + ((0 : ℝ) - 0) ^ 2 = (10 : ℝ) ^ 2 by norm_num,
      Real.sqrt_sq (by norm_num : (0 : ℝ) ≤ 10),
      show (10 : ℝ) = ((10 : ℤ) : ℝ) by norm_num, round1_intCast]
  have hthr : POS_FLUCTUATION_FILTER
      ≤ round1 (Real.sqrt (((0 : ℝ) - 10) ^ 2 + ((0 : ℝ) - 0) ^ 2)) := by
    rw [hd]
    unfold POS_FLUCTUATION_FILTER
    norm_num
  unfold updateObject
  rw [show objC4.pos = some (some 0, some 0) from rfl]
  simp only [show extractPos dataC4 "posX" = .ok (some 10) from rfl,
    show extractPos dataC4 "posY" = .ok (some 0) from rfl, bindE_ok]
  rw [show calculate_distance (some (some 10, some 0)) (some (some 0, some 0))
      = .ok (round1 (Real.sqrt (((0 : ℝ) - 10) ^ 2 + ((0 : ℝ) - 0) ^ 2))) from rfl]
  simp only [bindE_ok]
  rw [if_pos (Or.inl hthr)]
  rw [show extractTms dataC4 = none from rfl,
    show truthyTms none = false from rfl, Bool.false_and, if_neg (Bool.false_ne_true)]
  simp only [bindE_ok]
  by_cases hcnd : (some ((some 0, some 0) : Coords) ≠ none ∧
      some ((some 10, some 0) : Coords) ≠ some ((some 0, some 0) : Coords))
  · rw [if_pos hcnd]
    rw [show calculate_heading (some (some 0, some 0)) (some (some 10, some 0))
        = .ok (headingVal 0 0 10 0) from rfl]
    simp only [bindE_ok]
    rfl
  · rw [if_neg hcnd]
    simp only [bindE_ok]
    rfl

/-- C4 (amended): on a committed position update, speed is
`round1(distance / elapsed * 3600 / 1000)` when both the candidate and prior
timestamps are known and non-zero, with elapsed time ≤ 0 yielding `0`; and
when either timestamp is unknown the speed is *set to `0`*, not left at its
prior value (the creation default is `None`, not `0`). -/
theorem updateObject_speed (obj : TagState) (data : TagData) (x1 y1 x2 y2 : ℝ)
    (hpos : obj.pos = some (some x1, some y1))
    (hx : extractPos data "posX" = .ok (some x2))
    (hy : extractPos data "posY" = .ok (some y2))
    (hthr : POS_FLUCTUATION_FILTER ≤ round1 (Real.sqrt ((x1 - x2) ^ 2 + (y1 - y2) ^ 2))) :
    (∀ t0 t1 : ℝ, obj.tms = some t0 → t0 ≠ 0 → extractTms data = some t1 → t1 ≠ 0 →
      (updateObject obj data).toOption.map TagState.spd =
        some (some (if t1 - t0 ≤ 0 then 0
          else round1 (round1 (Real.sqrt ((x2 - x1) ^ 2 + (y2 - y1) ^ 2))
            / (t1 - t0) * 3600 / 1000)))) ∧
    ((obj.tms = none ∨ extractTms data = none) →
      (updateObject obj data).toOption.map TagState.spd = some (some 0)) := by
  constructor
  · intro t0 t1 hO h0 hT h1
    unfold updateObject
    rw [hpos]
    simp only [hx, hy, bindE_ok]
    rw [show calculate_distance (some (some x2, some y2)) (some (some x1, some y1))
        = .ok (round1 (Real.sqrt ((x1 - x2) ^ 2 + (y1 - y2) ^ 2))) from rfl]
    simp only [bindE_ok]
    rw [if_pos (Or.inl hthr), hT, hO,
      show truthyTms (some t1) = true by simp [truthyTms, h1],
      show truthyTms (some t0) = true by simp [truthyTms, h0],
      if_pos (show (true && true) = true from rfl)]
    rw [show calculate_speed (some (some x1, some y1)) (some t0)
          (some (some x2, some y2)) (some t1)
        = (if t1 - t0 ≤ 0 then Except.ok 0
           else Except.ok (round1 (round1 (Real.sqrt ((x2 - x1) ^ 2 + (y2 - y1) ^ 2))
             / (t1 - t0) * 3600 / 1000))) from rfl]
    by_cases hdt : t1 - t0 ≤ 0
    · rw [if_pos hdt, if_pos hdt]
      simp only [bindE_ok]
      by_cases hcnd : (some ((some x1, some y1) : Coords) ≠ none ∧
          some ((some x2, some y2) : Coords) ≠ some ((some x1, some y1) : Coords))
      · rw [if_pos hcnd]
        rw [show calculate_heading (some (some x1, some y1)) (some (some x2, some y2))
            = .ok (headingVal x1 y1 x2 y2) from rfl]
        simp only [bindE_ok]
        rfl
      · rw [if_neg hcnd]
        simp only [bindE_ok]
        rfl
    · rw [if_neg hdt, if_neg hdt]
      simp only [bindE_ok]
      by_cases hcnd : (some ((some x1, some y1) : Coords) ≠ none ∧
          some ((some x2, some y2) : Coords) ≠ some ((some x1, some y1) : Coords))
      · rw [if_pos hcnd]
        rw [show calculate_heading (some (some x1, some y1)) (some (some x2, some y2))
            = .ok (headingVal x1 y1 x2 y2) from rfl]
        simp only [bindE_ok]
        rfl
      · rw [if_neg hcnd]
        simp only [bindE_ok]
        rfl
  · intro hor
    unfold updateObject
    rw [hpos]
    simp only [hx, hy, bindE_ok]
    rw [show calculate_distance (some (some x2, some y2)) (some (some x1, some y1))
        = .ok (round1 (Real.sqrt ((x1 - x2) ^ 2 + (y1 - y2) ^ 2))) from rfl]
    simp only [bindE_ok]
    rw [if_pos (Or.inl hthr)]
    have hfalse : (truthyTms (extractTms data) && truthyTms obj.tms) = false := by
      rcases hor with hO | hT
      · rw [hO, show truthyTms none = false from rfl, Bool.and_false]
      · rw [hT, show truthyTms none = false from rfl, Bool.false_and]
    rw [hfalse, if_neg (Bool.false_ne_true)]
    simp only [bindE_ok]
    by_cases hcnd : (some ((some x1, some y1) : Coords) ≠ none ∧
        some ((some x2, some y2) : Coords) ≠ some ((some x1, some y1) : Coords))
    · rw [if_pos hcnd]
      rw [show calculate_heading (some (some x1, some y1)) (some (some x2, some y2))
          = .ok (headingVal x1 y1 x2 y2) from rfl]
      simp only [bindE_ok]
      rfl
    · rw [if_neg hcnd]
      simp only [bindE_ok]
      rfl

/-- C4 witness: committed move from `(0, 0)` at time `100` to `(10, 0)` at
time `200` — the speed law applies with both timestamps known. -/
theorem updateObject_speed_witness :
    (updateObject objW4 dataW4).toOption.map TagState.spd =
      some (some (if (200 : ℝ) - 100 ≤ 0 then 0
        else round1 (round1 (Real.sqrt (((10 : ℝ) - 0) ^ 2 + ((0 : ℝ) - 0) ^ 2))
          / ((200 : ℝ) - 100) * 3600 / 1000))) :=
  (updateObject_speed objW4 dataW4 0 0 10 0 rfl rfl rfl (by
    rw [show ((0 : ℝ) - 10) ^ 2 + ((0 : ℝ) - 0) ^ 2 = (10 : ℝ) ^ 2 by norm_num,
      Real.sqrt_sq (by norm_num : (0 : ℝ) ≤ 10),
      show (10 : ℝ) = ((10 : ℤ) : ℝ) by norm_num, round1_intCast]
    unfold POS_FLUCTUATION_FILTER
    norm_num)).1 100 200 rfl (by norm_num) rfl (by norm_num)

/-- C5 (amended): for an ordered pair with known positions, the vector's
`fuzzy` flag is set exactly when the counterpart is in a bad-signal zone, and
the direction is `-1` when the subject's heading is unknown *or equals `0`*
(Python truthiness of `if my_hdg`); otherwise it is
`round(bearing(A, B) - heading) mod 360`, a value in `[0, 360)`; and it is
forced to `-1` whenever both parties are in bad-signal zones. -/
theorem create_vector_direction (A B : TagState) (ax ay bx bb : ℝ)
    (hA : A.pos = some (some ax, some ay)) (hB : B.pos = some (some bx, some bb)) :
    ∃ v, create_vector A B = .ok v ∧
      v.f = !B.bsz.isEmpty ∧
      v.d = (if A.bsz ≠ [] ∧ B.bsz ≠ [] then -1
             else match A.hdg with
               | none => -1
               | some h => if h = 0 then -1 else (headingVal ax ay bx bb - h) % 360) ∧
      (∀ h : ℤ, A.hdg = some h → h ≠ 0 → ¬(A.bsz ≠ [] ∧ B.bsz ≠ []) →
        0 ≤ v.d ∧ v.d < 360) := by
  unfold create_vector
  rw [hA, hB]
  rcases hH : A.hdg with _ | h
  · simp only [vectorDirection, bindE_ok]
    rw [show calculate_distance (some (some ax, some ay)) (some (some bx, some bb))
        = .ok (round1 (Real.sqrt ((bx - ax) ^ 2 + (bb - ay) ^ 2))) from rfl]
    simp only [bindE_ok]
    refine ⟨_, rfl, rfl, rfl, ?_⟩
    intro h' he _ _
    exact Option.noConfusion he
  · by_cases hz : h = 0
    · subst hz
      simp only [vectorDirection]
      rw [if_pos trivial]
      simp only [bindE_ok]
      rw [show calculate_distance (some (some ax, some ay)) (some (some bx, some bb))
          = .ok (round1 (Real.sqrt ((bx - ax) ^ 2 + (bb - ay) ^ 2))) from rfl]
      simp only [bindE_ok]
      refine ⟨_, rfl, rfl, rfl, ?_⟩
      intro h' he hz' _
      exact absurd (Option.some.inj he).symm hz'
    · simp only [vectorDirection]
      rw [if_neg hz]
      rw [show calculate_angle (some (some ax, some ay)) (some (some bx, some bb)) h
          = .ok ((360 + (headingVal ax ay bx bb - h)) % 360) from rfl]
      simp only [bindE_ok]
      rw [show calculate_distance (some (some ax, some ay)) (some (some bx, some bb))
          = .ok (round1 (Real.sqrt ((bx - ax) ^ 2 + (bb - ay) ^ 2))) from rfl]
      simp only [bindE_ok]
      refine ⟨_, rfl, rfl, ?_, ?_⟩
      · show (if A.bsz ≠ [] ∧ B.bsz ≠ [] then (-1 : ℤ)
            else (360 + (headingVal ax ay bx bb - h)) % 360)
          = (if A.bsz ≠ [] ∧ B.bsz ≠ [] then (-1 : ℤ)
            else if h = 0 then -1 else (headingVal ax ay bx bb - h) % 360)
        rw [if_neg hz]
        by_cases hc : (A.bsz ≠ [] ∧ B.bsz ≠ [])
        · rw [if_pos hc, if_pos hc]
        · rw [if_neg hc, if_neg hc]
          omega
      · intro h' he hz' hc
        show 0 ≤ (if A.bsz ≠ [] ∧ B.bsz ≠ [] then (-1 : ℤ)
            else (360 + (headingVal ax ay bx bb - h)) % 360)
          ∧ (if A.bsz ≠ [] ∧ B.bsz ≠ [] then (-1 : ℤ)
            else (360 + (headingVal ax ay bx bb - h)) % 360) < 360
        rw [if_neg hc]
        omega

/-- C5 witness: subject at `(0, 0)` with known heading `90`, counterpart at
`(10, 0)` (in a bad-signal zone, so the vector is fuzzy but the subject is
not, so the direction is not overridden): the direction is the relative
bearing `(90 - 90) mod 360`. -/
theorem create_vector_direction_witness :
    (create_vector objA5 objB5).toOption.map RelVec.d
      = some ((headingVal 0 0 10 0 - 90) % 360) := by
  obtain ⟨v, hv, _, hd, _⟩ := create_vector_direction objA5 objB5 0 0 10 0 rfl rfl
  rw [hv]
  show some v.d = _
  rw [hd]
  rfl

/-- Shared helper: replacing the value at a key preserves the length. -/
theorem setKey_length (reg : Registry) (i : ℤ) (o : TagState) :
    (setKey reg i o).length = reg.length := by
  unfold setKey
  exact List.length_map _ _

/-- Shared helper: an element of `setKey reg i o` whose key is `i` is the
replacement pair. -/
theorem mem_setKey_self (i : ℤ) (o : TagState) (p : ℤ × TagState) :
    ∀ reg : Registry, p ∈ setKey reg i o → p.1 = i → p = (i, o) := by
  intro reg
  induction reg with
  | nil => intro hp _; cases hp
  | cons q qs ih =>
    intro hp hpi
    simp only [setKey, List.map_cons, List.mem_cons] at hp
    rcases hp with h | h
    · by_cases hq : q.1 = i
      · rwa [if_pos hq] at h
      · rw [if_neg hq] at h
        exact absurd (h ▸ hpi) hq
    · exact ih h hpi

/-- Shared helper: an element of `setKey reg i o` whose key is not `i` was
already in the registry. -/
theorem mem_setKey_ne (i : ℤ) (o : TagState) (p : ℤ × TagState) :
    ∀ reg : Registry, p ∈ setKey reg i o → p.1 ≠ i → p ∈ reg := by
  intro reg
  induction reg with
  | nil => intro hp _; cases hp
  | cons q qs ih =>
    intro hp hpi
    simp only [setKey, List.map_cons, List.mem_cons] at hp
    rcases hp with h | h
    · by_cases hq : q.1 = i
      · rw [if_pos hq] at h
        exact absurd (by rw [h] : p.1 = i) hpi
      · rw [if_neg hq] at h
        exact List.mem_cons.mpr (Or.inl h)
    · exact List.mem_cons.mpr (Or.inr (ih h hpi))

/-- Shared helper: a successful lookup means the key is present. -/
theorem lookup_mem_keys (i : ℤ) (obj : TagState) :
    ∀ reg : Registry, lookupObj i reg = some obj → i ∈ reg.map Prod.fst := by
  intro reg
  induction reg with
  | nil => intro h; exact Option.noConfusion h
  | cons q qs ih =>
    intro h
    unfold lookupObj at h
    by_cases hq : q.1 = i
    · simp only [List.map_cons]
      exact List.mem_cons.mpr (Or.inl hq.symm)
    · rw [if_neg hq] at h
      simp only [List.map_cons]
      exact List.mem_cons.mpr (Or.inr (ih h))

/-- Shared helper: a completed inner vector loop yields one vector per
registry entry whose key differs from the subject's. -/
theorem buildVectors_ok_length (obj : TagState) (i : ℤ) :
    ∀ (l : Registry) (vs : List RelVec), buildVectors obj i l = .ok vs →
      vs.length + l.countP (fun p => p.1 == i) = l.length := by
  intro l
  induction l with
  | nil =>
    intro vs h
    simp only [buildVectors] at h
    injection h with h2
    subst h2
    simp
  | cons p ps ih =>
    intro vs h
    simp only [buildVectors] at h
    by_cases hp : p.1 ≠ i
    · rw [if_pos hp] at h
      cases hv : create_vector obj p.2 with
      | error e =>
        rw [hv] at h
        simp only [bindE_error] at h
        simp at h
      | ok v =>
        rw [hv] at h
        simp only [bindE_ok] at h
        cases hb : buildVectors obj i ps with
        | error e =>
          rw [hb] at h
          simp only [bindE_error] at h
          simp at h
        | ok vs' =>
          rw [hb] at h
          simp only [bindE_ok] at h
          injection h with h2
          subst h2
          have hih := ih vs' hb
          have hfalse : (p.1 == i) = false := beq_eq_false_iff_ne.mpr hp
          rw [List.countP_cons, hfalse]
          simp only [List.length_cons, Bool.false_eq_true, if_false]
          omega
    · rw [if_neg hp] at h
      push_neg at hp
      have hih := ih vs h
      have htrue : (p.1 == i) = true := beq_iff_eq.mpr hp
      rw [List.countP_cons, htrue]
      simp only [List.length_cons, if_true]
      omega

/-- Shared helper: the invariant carried through `create_vectorsGo` — keys
and length are preserved, every processed id holds `n - 1` vectors, and
unprocessed entries are untouched. -/
theorem create_vectorsGo_spec (ids : List ℤ) :
    ∀ (reg res : Registry), create_vectorsGo ids reg = (res, true) →
      (reg.map Prod.fst).Nodup →
      res.map Prod.fst = reg.map Prod.fst ∧ res.length = reg.length ∧
      (∀ p ∈ res, p.1 ∈ ids → p.2.vct.length = reg.length - 1) ∧
      (∀ p ∈ res, p.1 ∉ ids → p ∈ reg) := by
  induction ids with
  | nil =>
    intro reg res h hnd
    simp only [create_vectorsGo] at h
    have h1 : reg = res := congrArg Prod.fst h
    subst h1
    exact ⟨rfl, rfl, fun p _ hpi => absurd hpi (List.not_mem_nil _), fun p hp _ => hp⟩
  | cons i rest ih =>
    intro reg res h hnd
    simp only [create_vectorsGo] at h
    split at h
    · exact absurd (congrArg Prod.snd h) Bool.false_ne_true
    · rename_i obj hl
      split at h
      · rename_i vs hb
        have hkeys : (setKey reg i { obj with vct := vs }).map Prod.fst = reg.map Prod.fst :=
          setKey_keys reg i _
        have hlen : (setKey reg i { obj with vct := vs }).length = reg.length :=
          setKey_length reg i _
        obtain ⟨k1, k2, k3, k4⟩ := ih (setKey reg i { obj with vct := vs }) res h
          (by rw [hkeys]; exact hnd)
        have hmemi : i ∈ reg.map Prod.fst := lookup_mem_keys i obj reg hl
        have hcount : reg.countP (fun p => p.1 == i) = 1 := by
          have hc1 : (reg.map Prod.fst).count i = 1 :=
            List.count_eq_one_of_mem hnd hmemi
          rw [List.count_eq_countP, List.countP_map] at hc1
          exact hc1
        have hvslen : vs.length = reg.length - 1 := by
          have hbl := buildVectors_ok_length obj i reg vs hb
          omega
        refine ⟨k1.trans hkeys, k2.trans hlen, ?_, ?_⟩
        · intro p hp hpi
          rcases List.mem_cons.mp hpi with hpe | hpr
          · by_cases hir : p.1 ∈ rest
            · have hk := k3 p hp hir
              rwa [hlen] at hk
            · have hpreg2 := k4 p hp hir
              have hpe2 := mem_setKey_self i { obj with vct := vs } p _ hpreg2 hpe
              rw [hpe2]
              exact hvslen
          · have hk := k3 p hp hpr
            rwa [hlen] at hk
        · intro p hp hpi
          have hi : p.1 ≠ i := fun he => hpi (he ▸ List.mem_cons_self _ _)
          have hr : p.1 ∉ rest := fun hm => hpi (List.mem_cons_of_mem _ hm)
          exact mem_setKey_ne i { obj with vct := vs } p _ (k4 p hp hr) hi
      · exact absurd (congrArg Prod.snd h) Bool.false_ne_true

/-- C7: for a registry with distinct keys (as a Python dict guarantees), if
`create_vectors` runs to completion, every asset ends the cycle with exactly
`n - 1` relative vectors, one per other tracked asset. -/
theorem create_vectors_length (reg res : Registry)
    (hnd : (reg.map Prod.fst).Nodup)
    (hres : create_vectors reg = (res, true)) :
    ∀ p ∈ res, p.2.vct.length = reg.length - 1 := by
  obtain ⟨k1, _, k3, _⟩ := create_vectorsGo_spec (reg.map Prod.fst) reg res hres hnd
  intro p hp
  exact k3 p hp (by rw [← k1]; exact List.mem_map_of_mem Prod.fst hp)

/-- C7 witness: on the two-asset registry `regW7` the vector stage completes
and both assets end with exactly one vector. -/
theorem create_vectors_length_witness :
    ((create_vectors regW7).1.map (fun p => p.2.vct.length)) = [1, 1] := by
  have h := create_vectors_length regW7 (create_vectors regW7).1 (by decide) rfl
  have e : (create_vectors regW7).1.map (fun p => p.2.vct.length)
      = (create_vectors regW7).1.map (fun _ => regW7.length - 1) :=
    List.map_congr_left (fun p hp => h p hp)
  rw [e]
  rfl

end Rasca
